import Mathlib

/-!
Shallow embedding of the library-lending domain model in
`src/python/src/biblioteca_py/domain.py`.

Modelling conventions:
- Python `date` values are modelled as `Int` (days since an arbitrary epoch):
  `date` is a totally ordered type, `d + timedelta(days=n)` is `d + n`, and
  `(d1 - d2).days` is `d1 - d2`.
- Python `dict`s are modelled as association lists preserving insertion order
  (first-occurrence lookup; assignment replaces in place or appends), exactly
  the semantics of Python dicts, which never hold duplicate keys.
- Python `set`s of strings are modelled as duplicate-free lists.
- `raise ValueError(...)` is modelled with `Except`: an error carries the
  fault name together with the store state as it stands at the raise site,
  so that theorems about state on failure are about the translation of the
  raise points, not about a convention of the embedding.
- The `BioAlert` singleton's state (subscriptions and whether a gateway is
  configured) is threaded through an explicit `LibState`; a `send_email` call
  is modelled as an `Email` record appended to the operation's output list.
- Python would raise `KeyError` where a subscriber id is missing from the
  readers map inside the notification lookups; the lookups below default to
  `""` there (no claim depends on that corner), and the reader lookup inside
  `return_copy` models the possible `KeyError` with the `KEY_ERROR` fault.
-/

namespace Biblioteca

inductive CopyStatus where
  | IN_LIBRARY
  | LOANED
  | RESERVED
  | LATE
  | REPAIR
deriving DecidableEq, Repr

structure Author where
  fullName : String
  birthDate : String
deriving DecidableEq, Repr

structure Book where
  id : String
  title : String
  year : Int
  author : Author
  edition : String
  isNewRelease : Bool
deriving DecidableEq, Repr

structure Loan where
  copyId : String
  bookId : String
  readerId : String
  start : Int
  due : Int
  returned : Option Int
deriving DecidableEq, Repr

def Loan.add_days (d : Int) (n : Int) : Int := d + n

def Loan.late_days (L : Loan) : Int :=
  match L.returned with
  | none => 0
  | some ret => if L.due < ret then ret - L.due else 0

structure Copy where
  id : String
  bookId : String
  status : CopyStatus
deriving DecidableEq, Repr

structure Reader where
  id : String
  email : String
  activeBanUntil : Option Int
  activeLoanIds : List String
deriving DecidableEq, Repr

def Reader.can_borrow (r : Reader) (today : Int) : Bool :=
  let banned : Bool :=
    match r.activeBanUntil with
    | none => false
    | some b => decide (today ≤ b)
  (!banned) && decide (r.activeLoanIds.length < 3)

structure Email where
  toAddr : String   -- the `to` argument of send_email (`to` is a Lean keyword)
  subject : String
  body : String
deriving DecidableEq, Repr

/-- Association-list lookup: first entry whose key matches (Python `d[k]` / `k in d`). -/
def dictLookup {α : Type} : List (String × α) → String → Option α
  | [], _ => none
  | p :: t, k => if p.1 == k then some p.2 else dictLookup t k

/-- Association-list assignment: replace the entry in place if the key is
present, else append (Python `d[k] = v` on an insertion-ordered dict). -/
def dictInsert {α : Type} : List (String × α) → String → α → List (String × α)
  | [], k, v => [(k, v)]
  | p :: t, k, v => if p.1 == k then (k, v) :: t else p :: dictInsert t k v

/-- Python `set.add` on a duplicate-free list. -/
def setAdd (l : List String) (x : String) : List String :=
  if l.contains x then l else l ++ [x]

/-- Python `set.discard` on a duplicate-free list. -/
def setRemove (l : List String) (x : String) : List String :=
  l.filter (fun y => !(y == x))

structure BioAlert where
  subs : List (String × List String)
  gateway : Bool
deriving DecidableEq, Repr

def BioAlert.subscribe (a : BioAlert) (bookId readerId : String) : BioAlert :=
  { a with subs := dictInsert a.subs bookId (setAdd ((dictLookup a.subs bookId).getD []) readerId) }

def BioAlert.notify_available (a : BioAlert) (bookId : String)
    (get_email_by_reader : String → String) (get_book_title : String → String) :
    BioAlert × List Email :=
  if a.gateway then
    let ids := (dictLookup a.subs bookId).getD []
    let title := get_book_title bookId
    (a, ids.map (fun rid =>
      ⟨get_email_by_reader rid, "Disponible: " ++ title, "Ya puedes solicitarlo"⟩))
  else (a, [])

structure MemoryDb where
  books : List (String × Book)
  copies : List (String × Copy)
  readers : List (String × Reader)
  loans : List (String × Loan)
  newReleaseBorrowed : List String
deriving DecidableEq, Repr

structure LibState where
  db : MemoryDb
  alert : BioAlert
deriving DecidableEq, Repr

inductive Fault where
  | COPY_NOT_FOUND
  | READER_NOT_FOUND
  | BOOK_NOT_FOUND
  | LOAN_NOT_FOUND
  | COPY_NOT_AVAILABLE
  | COPY_NOT_LOANED
  | ORIGINAL_ALREADY_BORROWED
  | ORIGINAL_NOT_BORROWED
  | NOT_NEW_RELEASE
  | BORROW_FORBIDDEN
  | KEY_ERROR
deriving DecidableEq, Repr

instance {ε α : Type} [DecidableEq ε] [DecidableEq α] : DecidableEq (Except ε α) := fun x y =>
  match x, y with
  | .error a, .error b =>
    if h : a = b then isTrue (by rw [h]) else isFalse (fun hh => h (Except.error.inj hh))
  | .ok a, .ok b =>
    if h : a = b then isTrue (by rw [h]) else isFalse (fun hh => h (Except.ok.inj hh))
  | .error _, .ok _ => isFalse (fun hh => Except.noConfusion hh)
  | .ok _, .error _ => isFalse (fun hh => Except.noConfusion hh)

def add_days (d : Int) (n : Int) : Int := d + n

def emailLookupOf (db : MemoryDb) : String → String :=
  fun rid => ((dictLookup db.readers rid).map Reader.email).getD ""

def titleLookupOf (db : MemoryDb) : String → String :=
  fun bid => ((dictLookup db.books bid).map Book.title).getD ""

def borrow_copy (s : LibState) (copyId readerId : String) (today : Int) :
    Except (Fault × LibState) (String × LibState × List Email) :=
  match dictLookup s.db.copies copyId with
  | none => .error (.COPY_NOT_FOUND, s)
  | some c =>
    match dictLookup s.db.readers readerId with
    | none => .error (.READER_NOT_FOUND, s)
    | some r =>
      if !(r.can_borrow today) then .error (.BORROW_FORBIDDEN, s)
      else if c.status ≠ CopyStatus.IN_LIBRARY then .error (.COPY_NOT_AVAILABLE, s)
      else
        let loanId := "L" ++ toString (s.db.loans.length + 1)
        let loan : Loan := ⟨copyId, c.bookId, readerId, today, add_days today 30, none⟩
        .ok (loanId,
          { s with db := { s.db with
              loans := dictInsert s.db.loans loanId loan,
              copies := dictInsert s.db.copies copyId { c with status := .LOANED },
              readers := dictInsert s.db.readers readerId
                { r with activeLoanIds := r.activeLoanIds ++ [loanId] } } },
          [])

def borrow_original_new_release (s : LibState) (bookId readerId : String) (today : Int) :
    Except (Fault × LibState) (String × LibState × List Email) :=
  match dictLookup s.db.books bookId with
  | none => .error (.BOOK_NOT_FOUND, s)
  | some b =>
    match dictLookup s.db.readers readerId with
    | none => .error (.READER_NOT_FOUND, s)
    | some r =>
      if !b.isNewRelease then .error (.NOT_NEW_RELEASE, s)
      else if !(r.can_borrow today) then .error (.BORROW_FORBIDDEN, s)
      else if s.db.newReleaseBorrowed.contains bookId then .error (.ORIGINAL_ALREADY_BORROWED, s)
      else
        let loanId := "L" ++ toString (s.db.loans.length + 1)
        let loan : Loan := ⟨"", bookId, readerId, today, add_days today 30, none⟩
        .ok (loanId,
          { s with db := { s.db with
              loans := dictInsert s.db.loans loanId loan,
              newReleaseBorrowed := setAdd s.db.newReleaseBorrowed bookId,
              readers := dictInsert s.db.readers readerId
                { r with activeLoanIds := r.activeLoanIds ++ [loanId] } } },
          [])

def return_copy (s : LibState) (copyId : String) (whenD : Int) :
    Except (Fault × LibState) (Unit × LibState × List Email) :=
  match dictLookup s.db.copies copyId with
  | none => .error (.COPY_NOT_FOUND, s)
  | some c =>
    if c.status ≠ CopyStatus.LOANED ∧ c.status ≠ CopyStatus.LATE then
      .error (.COPY_NOT_LOANED, s)
    else
      match s.db.loans.find? (fun p => p.2.copyId == copyId && p.2.returned.isNone) with
      | none => .error (.LOAN_NOT_FOUND, s)
      | some (loanId, L0) =>
        if loanId == "" then .error (.LOAN_NOT_FOUND, s)
        else
          match dictLookup s.db.readers L0.readerId with
          | none => .error (.KEY_ERROR, s)
          | some R =>
            let Lr := { L0 with returned := some whenD }
            let late := Lr.late_days
            let R1 := if 0 < late then { R with activeBanUntil := some (whenD + 2 * late) } else R
            let R2 := { R1 with activeLoanIds := R1.activeLoanIds.filter (fun x => !(x == loanId)) }
            let db1 := { s.db with
              loans := dictInsert s.db.loans loanId Lr,
              copies := dictInsert s.db.copies copyId { c with status := .IN_LIBRARY },
              readers := dictInsert s.db.readers L0.readerId R2 }
            let nr := s.alert.notify_available L0.bookId (emailLookupOf db1) (titleLookupOf db1)
            .ok ((), ⟨db1, nr.1⟩, nr.2)

def return_original_new_release (s : LibState) (bookId readerId : String) (whenD : Int) :
    Except (Fault × LibState) (Unit × LibState × List Email) :=
  match dictLookup s.db.books bookId with
  | none => .error (.BOOK_NOT_FOUND, s)
  | some _b =>
    match dictLookup s.db.readers readerId with
    | none => .error (.READER_NOT_FOUND, s)
    | some R =>
      if !(s.db.newReleaseBorrowed.contains bookId) then
        .error (.ORIGINAL_NOT_BORROWED, s)
      else
        match s.db.loans.find? (fun p =>
            p.2.bookId == bookId && p.2.readerId == readerId &&
            p.2.copyId == "" && p.2.returned.isNone) with
        | none => .error (.LOAN_NOT_FOUND, s)
        | some (loanId, L0) =>
          if loanId == "" then .error (.LOAN_NOT_FOUND, s)
          else
            let Lr := { L0 with returned := some whenD }
            let late := Lr.late_days
            let R1 := if 0 < late then { R with activeBanUntil := some (whenD + 2 * late) } else R
            let R2 := { R1 with activeLoanIds := R1.activeLoanIds.filter (fun x => !(x == loanId)) }
            let db1 := { s.db with
              loans := dictInsert s.db.loans loanId Lr,
              newReleaseBorrowed := setRemove s.db.newReleaseBorrowed bookId,
              readers := dictInsert s.db.readers readerId R2 }
            let nr := s.alert.notify_available bookId (emailLookupOf db1) (titleLookupOf db1)
            .ok ((), ⟨db1, nr.1⟩, nr.2)

/-- One lending-service operation, for reasoning about sequences of calls. -/
inductive Op where
  | borrowC (copyId readerId : String) (today : Int)
  | borrowO (bookId readerId : String) (today : Int)
  | returnC (copyId : String) (whenD : Int)
  | returnO (bookId readerId : String) (whenD : Int)
deriving DecidableEq, Repr

def resState {α : Type} : Except (Fault × LibState) (α × LibState × List Email) → LibState
  | .ok (_, s', _) => s'
  | .error (_, s') => s'

def applyOp (s : LibState) : Op → LibState
  | .borrowC a b t => resState (borrow_copy s a b t)
  | .borrowO a b t => resState (borrow_original_new_release s a b t)
  | .returnC a t => resState (return_copy s a t)
  | .returnO a b t => resState (return_original_new_release s a b t)

def runOps (s : LibState) (ops : List Op) : LibState := ops.foldl applyOp s

/-- The per-reader loan-count invariant: every reader in the store holds at
most 3 active loans. -/
def loanLimit (db : MemoryDb) : Prop :=
  ∀ p ∈ db.readers, (Prod.snd p).activeLoanIds.length ≤ 3

instance (db : MemoryDb) : Decidable (loanLimit db) := by
  unfold loanLimit; infer_instance

/-! Concrete store fixtures used to instantiate the theorems on closed inputs. -/

def wAuthor : Author := ⟨"Autora", "1990-01-01"⟩

def wBook : Book := ⟨"B1", "Titulo", 2025, wAuthor, "1a", false⟩

def wBookNR : Book := ⟨"B2", "Nuevo", 2025, wAuthor, "1a", true⟩

def wCopy : Copy := ⟨"C1", "B1", CopyStatus.LOANED⟩

def wCopyIn : Copy := ⟨"C1", "B1", CopyStatus.IN_LIBRARY⟩

def wLoan : Loan := ⟨"C1", "B1", "R1", 0, 30, none⟩

def wLoanO : Loan := ⟨"", "B2", "R1", 0, 30, none⟩

def wReader : Reader := ⟨"R1", "r1@x", none, ["L1"]⟩

def wReaderBanLoan : Reader := ⟨"R1", "r1@x", some 5, ["L1"]⟩

def wReaderBanned : Reader := ⟨"R2", "r2@x", some 100, []⟩

def wReaderOk : Reader := ⟨"R3", "r3@x", none, []⟩

def wAlertOff : BioAlert := ⟨[], false⟩

def wAlertOn : BioAlert := ⟨[("B1", ["R1"])], true⟩

def wState : LibState :=
  ⟨⟨[("B1", wBook)], [("C1", wCopy)], [("R1", wReader)], [("L1", wLoan)], []⟩, wAlertOff⟩

def wStateBan : LibState :=
  ⟨⟨[("B1", wBook)], [("C1", wCopy)], [("R1", wReaderBanLoan)], [("L1", wLoan)], []⟩, wAlertOff⟩

def wStateIn : LibState :=
  ⟨⟨[("B1", wBook)], [("C1", wCopyIn)], [("R3", wReaderOk)], [], []⟩, wAlertOff⟩

def wStateNotAvail : LibState :=
  ⟨⟨[("B1", wBook)], [("C1", wCopy)], [("R2", wReaderBanned)], [], []⟩, wAlertOff⟩

def wStateNR : LibState :=
  ⟨⟨[("B2", wBookNR)], [], [("R2", wReaderBanned)], [], ["B2"]⟩, wAlertOff⟩

def wStateNR2 : LibState :=
  ⟨⟨[("B2", wBookNR)], [], [("R3", wReaderOk)], [], ["B2"]⟩, wAlertOff⟩

def wStateO : LibState :=
  ⟨⟨[("B2", wBookNR)], [], [("R1", wReader)], [("L1", wLoanO)], ["B2"]⟩, wAlertOff⟩

def wReader3 : Reader := ⟨"R5", "r5@x", none, ["LA", "LB", "LC"]⟩

def wState3 : LibState :=
  ⟨⟨[("B1", wBook)], [("C1", wCopyIn)], [("R5", wReader3)], [], []⟩, wAlertOff⟩

/-! Basic lemmas about the dictionary and set models. -/

theorem dictLookup_dictInsert_self {α : Type} (l : List (String × α)) (k : String) (v : α) :
    dictLookup (dictInsert l k v) k = some v := by
  induction l with
  | nil => simp [dictInsert, dictLookup]
  | cons p t ih =>
    by_cases h : p.1 == k
    · simp [dictInsert, dictLookup, h]
    · simp [dictInsert, dictLookup, h, ih]

theorem dictLookup_dictInsert_ne {α : Type} (l : List (String × α)) {k k' : String} (v : α)
    (h : ¬ (k' = k)) : dictLookup (dictInsert l k v) k' = dictLookup l k' := by
  have h2 : ¬ ((k == k') = true) := by
    simp only [beq_iff_eq]
    exact fun hh => h hh.symm
  induction l with
  | nil => simp [dictInsert, dictLookup, h2]
  | cons p t ih =>
    by_cases hp : p.1 == k
    · have hpk : p.1 = k := by simpa using hp
      have hpk' : ¬ ((p.1 == k') = true) := by
        simp only [beq_iff_eq, hpk]
        exact fun hh => h hh.symm
      simp [dictInsert, dictLookup, hp, h2, hpk']
    · by_cases hq : p.1 == k'
      · simp [dictInsert, dictLookup, hp, hq]
      · simp [dictInsert, dictLookup, hp, hq, ih]

theorem dictLookup_mem {α : Type} {l : List (String × α)} {k : String} {v : α}
    (h : dictLookup l k = some v) : (k, v) ∈ l := by
  induction l with
  | nil => simp [dictLookup] at h
  | cons p t ih =>
    by_cases hp : p.1 == k
    · have hpk : p.1 = k := by simpa using hp
      simp only [dictLookup, hp, if_pos, Option.some.injEq] at h
      cases p with
      | mk a b =>
        simp only at hpk h
        rw [← hpk, ← h]
        exact List.mem_cons_self _ _
    · simp only [dictLookup, hp, Bool.false_eq_true, if_neg, not_false_iff] at h
      exact List.mem_cons_of_mem _ (ih h)

theorem forall_dictInsert {α : Type} {P : α → Prop} (l : List (String × α)) (k : String) (v : α)
    (hv : P v) :
    (∀ p ∈ l, P (Prod.snd p)) → ∀ p ∈ dictInsert l k v, P (Prod.snd p) := by
  induction l with
  | nil =>
    intro _ q hq
    simp only [dictInsert, List.mem_singleton] at hq
    rw [hq]
    exact hv
  | cons p t ih =>
    intro hl q hq
    by_cases hp : p.1 == k
    · simp only [dictInsert, hp, if_pos] at hq
      rcases List.mem_cons.mp hq with h | h
      · rw [h]; exact hv
      · exact hl q (List.mem_cons_of_mem _ h)
    · simp only [dictInsert, hp, Bool.false_eq_true, if_neg, not_false_iff] at hq
      rcases List.mem_cons.mp hq with h | h
      · exact h ▸ hl p (List.mem_cons_self _ _)
      · exact ih (fun x hx => hl x (List.mem_cons_of_mem _ hx)) q h

theorem setRemove_contains_false (l : List String) (x : String) :
    (setRemove l x).contains x = false := by
  simp [setRemove, List.contains, List.mem_filter]

theorem notify_available_fst (a : BioAlert) (bookId : String)
    (el tl : String → String) : (a.notify_available bookId el tl).1 = a := by
  unfold BioAlert.notify_available
  by_cases h : a.gateway <;> simp [h]

/-! Characterizations of the four service operations and preservation of the
loan-count limit, used by the claim theorems below. -/

theorem borrow_copy_ok (s : LibState) (copyId readerId : String) (today : Int)
    (c : Copy) (r : Reader)
    (hc : dictLookup s.db.copies copyId = some c)
    (hr : dictLookup s.db.readers readerId = some r)
    (hcb : r.can_borrow today = true)
    (hst : c.status = CopyStatus.IN_LIBRARY) :
    borrow_copy s copyId readerId today =
      .ok ("L" ++ toString (s.db.loans.length + 1),
        ⟨{ s.db with
            loans := dictInsert s.db.loans ("L" ++ toString (s.db.loans.length + 1))
              ⟨copyId, c.bookId, readerId, today, today + 30, none⟩,
            copies := dictInsert s.db.copies copyId { c with status := CopyStatus.LOANED },
            readers := dictInsert s.db.readers readerId
              { r with activeLoanIds := r.activeLoanIds ++ ["L" ++ toString (s.db.loans.length + 1)] } },
          s.alert⟩,
        []) := by
  simp [borrow_copy, hc, hr, hcb, hst, add_days]

theorem borrow_original_ok (s : LibState) (bookId readerId : String) (today : Int)
    (b : Book) (r : Reader)
    (hb : dictLookup s.db.books bookId = some b)
    (hr : dictLookup s.db.readers readerId = some r)
    (hnr : b.isNewRelease = true)
    (hcb : r.can_borrow today = true)
    (hmem : s.db.newReleaseBorrowed.contains bookId = false) :
    borrow_original_new_release s bookId readerId today =
      .ok ("L" ++ toString (s.db.loans.length + 1),
        ⟨{ s.db with
            loans := dictInsert s.db.loans ("L" ++ toString (s.db.loans.length + 1))
              ⟨"", bookId, readerId, today, today + 30, none⟩,
            newReleaseBorrowed := setAdd s.db.newReleaseBorrowed bookId,
            readers := dictInsert s.db.readers readerId
              { r with activeLoanIds := r.activeLoanIds ++ ["L" ++ toString (s.db.loans.length + 1)] } },
          s.alert⟩,
        []) := by
  have hmem' : bookId ∉ s.db.newReleaseBorrowed := by simpa using hmem
  simp [borrow_original_new_release, hb, hr, hnr, hcb, hmem, hmem', add_days]

theorem return_copy_ok (s : LibState) (copyId : String) (whenD : Int) (c : Copy)
    (loanId : String) (L0 : Loan) (R : Reader)
    (hc : dictLookup s.db.copies copyId = some c)
    (hst : c.status = CopyStatus.LOANED ∨ c.status = CopyStatus.LATE)
    (hfind : s.db.loans.find? (fun p => p.2.copyId == copyId && p.2.returned.isNone)
      = some (loanId, L0))
    (hid : ¬ (loanId = ""))
    (hR : dictLookup s.db.readers L0.readerId = some R) :
    ∃ sent : List Email,
      return_copy s copyId whenD =
        .ok ((),
          ⟨{ s.db with
              loans := dictInsert s.db.loans loanId { L0 with returned := some whenD },
              copies := dictInsert s.db.copies copyId { c with status := CopyStatus.IN_LIBRARY },
              readers := dictInsert s.db.readers L0.readerId
                ⟨R.id, R.email,
                 (if 0 < Loan.late_days { L0 with returned := some whenD } then
                    some (whenD + 2 * Loan.late_days { L0 with returned := some whenD })
                  else R.activeBanUntil),
                 R.activeLoanIds.filter (fun x => !(x == loanId))⟩ },
            s.alert⟩,
          sent) := by
  have hid' : (loanId == "") = false := by simpa using hid
  have hguard : ¬ (c.status ≠ CopyStatus.LOANED ∧ c.status ≠ CopyStatus.LATE) := by
    rcases hst with h | h <;> simp [h]
  simp only [return_copy, hc, hfind, hR, hid', if_neg hguard]
  by_cases hl : 0 < Loan.late_days { L0 with returned := some whenD } <;>
    simp [hl, notify_available_fst]

theorem return_original_ok (s : LibState) (bookId readerId : String) (whenD : Int)
    (b : Book) (loanId : String) (L0 : Loan) (R : Reader)
    (hb : dictLookup s.db.books bookId = some b)
    (hR : dictLookup s.db.readers readerId = some R)
    (hmem : s.db.newReleaseBorrowed.contains bookId = true)
    (hfind : s.db.loans.find? (fun p =>
        p.2.bookId == bookId && p.2.readerId == readerId &&
        p.2.copyId == "" && p.2.returned.isNone) = some (loanId, L0))
    (hid : ¬ (loanId = "")) :
    ∃ sent : List Email,
      return_original_new_release s bookId readerId whenD =
        .ok ((),
          ⟨{ s.db with
              loans := dictInsert s.db.loans loanId { L0 with returned := some whenD },
              newReleaseBorrowed := setRemove s.db.newReleaseBorrowed bookId,
              readers := dictInsert s.db.readers readerId
                ⟨R.id, R.email,
                 (if 0 < Loan.late_days { L0 with returned := some whenD } then
                    some (whenD + 2 * Loan.late_days { L0 with returned := some whenD })
                  else R.activeBanUntil),
                 R.activeLoanIds.filter (fun x => !(x == loanId))⟩ },
            s.alert⟩,
          sent) := by
  have hid' : (loanId == "") = false := by simpa using hid
  simp only [return_original_new_release, hb, hR, hmem, hfind, hid']
  by_cases hl : 0 < Loan.late_days { L0 with returned := some whenD } <;>
    simp [hl, notify_available_fst]

theorem return_original_ok_inv {s : LibState} {bookId readerId : String} {whenD : Int}
    {u : Unit} {s' : LibState} {sent : List Email}
    (h : return_original_new_release s bookId readerId whenD = .ok (u, s', sent)) :
    s'.db.newReleaseBorrowed = setRemove s.db.newReleaseBorrowed bookId := by
  unfold return_original_new_release at h
  repeat' split at h
  all_goals try exact Except.noConfusion h
  simp only [Except.ok.injEq, Prod.mk.injEq] at h
  obtain ⟨-, h2, -⟩ := h
  subst h2
  rfl

theorem can_borrow_length_lt (r : Reader) (t : Int) (h : r.can_borrow t = true) :
    r.activeLoanIds.length < 3 := by
  unfold Reader.can_borrow at h
  simp at h
  exact h.2

theorem loanLimit_borrow_copy (s : LibState) (a b : String) (t : Int)
    (h : loanLimit s.db) : loanLimit (resState (borrow_copy s a b t)).db := by
  cases hc : dictLookup s.db.copies a with
  | none => simpa [borrow_copy, hc, resState] using h
  | some c =>
    cases hr : dictLookup s.db.readers b with
    | none => simpa [borrow_copy, hc, hr, resState] using h
    | some r =>
      by_cases hcb : r.can_borrow t = true
      · by_cases hst : c.status = CopyStatus.IN_LIBRARY
        · have hlen := can_borrow_length_lt r t hcb
          rw [borrow_copy_ok s a b t c r hc hr hcb hst]
          simp only [resState]
          unfold loanLimit at h ⊢
          intro p hp
          refine @forall_dictInsert _ (fun rd => rd.activeLoanIds.length ≤ 3) _ _ _ ?_ h p hp
          simp only [List.length_append, List.length_cons, List.length_nil]
          omega
        · simpa [borrow_copy, hc, hr, hcb, hst, resState] using h
      · have hcb' : r.can_borrow t = false := by simpa using hcb
        simpa [borrow_copy, hc, hr, hcb', resState] using h

theorem loanLimit_borrow_original (s : LibState) (a b : String) (t : Int)
    (h : loanLimit s.db) : loanLimit (resState (borrow_original_new_release s a b t)).db := by
  cases hb : dictLookup s.db.books a with
  | none => simpa [borrow_original_new_release, hb, resState] using h
  | some bk =>
    cases hr : dictLookup s.db.readers b with
    | none => simpa [borrow_original_new_release, hb, hr, resState] using h
    | some r =>
      by_cases hnr : bk.isNewRelease = true
      · by_cases hcb : r.can_borrow t = true
        · by_cases hmem : s.db.newReleaseBorrowed.contains a = true
          · have hm : a ∈ s.db.newReleaseBorrowed := by simpa using hmem
            simpa [borrow_original_new_release, hb, hr, hnr, hcb, hmem, hm, resState] using h
          · have hmem' : s.db.newReleaseBorrowed.contains a = false := by simpa using hmem
            have hlen := can_borrow_length_lt r t hcb
            rw [borrow_original_ok s a b t bk r hb hr hnr hcb hmem']
            simp only [resState]
            unfold loanLimit at h ⊢
            intro p hp
            refine @forall_dictInsert _ (fun rd => rd.activeLoanIds.length ≤ 3) _ _ _ ?_ h p hp
            simp only [List.length_append, List.length_cons, List.length_nil]
            omega
        · have hcb' : r.can_borrow t = false := by simpa using hcb
          simpa [borrow_original_new_release, hb, hr, hnr, hcb', resState] using h
      · have hnr' : bk.isNewRelease = false := by simpa using hnr
        simpa [borrow_original_new_release, hb, hr, hnr', resState] using h

theorem loanLimit_return_copy (s : LibState) (a : String) (t : Int)
    (h : loanLimit s.db) : loanLimit (resState (return_copy s a t)).db := by
  cases hc : dictLookup s.db.copies a with
  | none => simpa [return_copy, hc, resState] using h
  | some c =>
    by_cases hguard : (c.status ≠ CopyStatus.LOANED ∧ c.status ≠ CopyStatus.LATE)
    · simpa [return_copy, hc, hguard, resState] using h
    · cases hfind : s.db.loans.find? (fun p => p.2.copyId == a && p.2.returned.isNone) with
      | none => simpa [return_copy, hc, if_neg hguard, hfind, resState] using h
      | some pr =>
        obtain ⟨loanId, L0⟩ := pr
        by_cases hid : loanId = ""
        · simpa [return_copy, hc, if_neg hguard, hfind, hid, resState] using h
        · cases hR : dictLookup s.db.readers L0.readerId with
          | none =>
            have hid' : (loanId == "") = false := by simpa using hid
            simpa [return_copy, hc, if_neg hguard, hfind, hid', hR, resState] using h
          | some R =>
            have hst : c.status = CopyStatus.LOANED ∨ c.status = CopyStatus.LATE := by
              rcases not_and_or.mp hguard with h1 | h1
              · exact Or.inl (not_not.mp h1)
              · exact Or.inr (not_not.mp h1)
            obtain ⟨sent, heq⟩ := return_copy_ok s a t c loanId L0 R hc hst hfind hid hR
            rw [heq]
            have hlen : R.activeLoanIds.length ≤ 3 := h _ (dictLookup_mem hR)
            simp only [resState]
            unfold loanLimit at h ⊢
            intro p hp
            refine @forall_dictInsert _ (fun rd => rd.activeLoanIds.length ≤ 3) _ _ _ ?_ h p hp
            exact le_trans (List.length_filter_le _ _) hlen

theorem loanLimit_return_original (s : LibState) (a b : String) (t : Int)
    (h : loanLimit s.db) : loanLimit (resState (return_original_new_release s a b t)).db := by
  cases hb : dictLookup s.db.books a with
  | none => simpa [return_original_new_release, hb, resState] using h
  | some bk =>
    cases hr : dictLookup s.db.readers b with
    | none => simpa [return_original_new_release, hb, hr, resState] using h
    | some R =>
      by_cases hmem : s.db.newReleaseBorrowed.contains a = true
      · have hm : a ∈ s.db.newReleaseBorrowed := by simpa using hmem
        cases hfind : s.db.loans.find? (fun p =>
            p.2.bookId == a && p.2.readerId == b && p.2.copyId == "" && p.2.returned.isNone) with
        | none => simpa [return_original_new_release, hb, hr, hmem, hm, hfind, resState] using h
        | some pr =>
          obtain ⟨loanId, L0⟩ := pr
          by_cases hid : loanId = ""
          · simpa [return_original_new_release, hb, hr, hmem, hm, hfind, hid, resState] using h
          · obtain ⟨sent, heq⟩ := return_original_ok s a b t bk loanId L0 R hb hr hmem hfind hid
            rw [heq]
            have hlen : R.activeLoanIds.length ≤ 3 := h _ (dictLookup_mem hr)
            simp only [resState]
            unfold loanLimit at h ⊢
            intro p hp
            refine @forall_dictInsert _ (fun rd => rd.activeLoanIds.length ≤ 3) _ _ _ ?_ h p hp
            exact le_trans (List.length_filter_le _ _) hlen
      · have hmem' : s.db.newReleaseBorrowed.contains a = false := by simpa using hmem
        have hm' : a ∉ s.db.newReleaseBorrowed := by simpa using hmem'
        simpa [return_original_new_release, hb, hr, hmem', hm', resState] using h

theorem loanLimit_applyOp (s : LibState) (op : Op) (h : loanLimit s.db) :
    loanLimit (applyOp s op).db := by
  cases op with
  | borrowC a b t => exact loanLimit_borrow_copy s a b t h
  | borrowO a b t => exact loanLimit_borrow_original s a b t h
  | returnC a t => exact loanLimit_return_copy s a t h
  | returnO a b t => exact loanLimit_return_original s a b t h

theorem loanLimit_runOps (ops : List Op) : ∀ s : LibState, loanLimit s.db →
    loanLimit (runOps s ops).db := by
  induction ops with
  | nil => intro s h; simpa [runOps] using h
  | cons op rest ih =>
    intro s h
    simpa [runOps] using ih (applyOp s op) (loanLimit_applyOp s op h)

theorem borrow_original_no_success_of_borrowed (s : LibState) (bookId readerId : String)
    (today : Int) (hmem : bookId ∈ s.db.newReleaseBorrowed) :
    ∀ x, borrow_original_new_release s bookId readerId today ≠ .ok x := by
  intro x h
  unfold borrow_original_new_release at h
  repeat' split at h
  all_goals simp_all

/-- C2: Reader.can_borrow asOf is true iff the reader has no active ban or asOf is
strictly after activeBanUntil (the ban is inclusive: asOf on or before the ban date
means banned) and the active loan count is strictly below 3; in particular a reader
with activeBanUntil at or after asOf cannot borrow even with zero active loans. -/
theorem claim_C2_can_borrow_spec (r : Reader) (asOf : Int) :
    (r.can_borrow asOf = true ↔
      ((∀ b, r.activeBanUntil = some b → b < asOf) ∧ r.activeLoanIds.length < 3)) ∧
    (∀ b, r.activeBanUntil = some b → asOf ≤ b → r.can_borrow asOf = false) := by
  unfold Reader.can_borrow
  cases hb : r.activeBanUntil with
  | none => simp [hb]
  | some b0 =>
    constructor
    · simp [hb, not_le]
    · intro b hbb hle
      simp_all

theorem claim_C2_witness :
    (⟨"R1", "r1@x", some 10, []⟩ : Reader).can_borrow 10 = false :=
  (claim_C2_can_borrow_spec ⟨"R1", "r1@x", some 10, []⟩ 10).2 10 rfl (by decide)

/-- C1: whenever a borrow or return operation fails with a named fault, the store
state carried by the error is exactly the state the operation was called on: all
precondition checks happen before any state is written, so a fault leaves the
store (books, copies, readers, loans, newReleaseBorrowed) untouched. -/
theorem claim_C1_faults_leave_state_unchanged (s : LibState)
    (copyId readerId bookId : String) (today whenD : Int) :
    (∀ f s', borrow_copy s copyId readerId today = .error (f, s') → s' = s) ∧
    (∀ f s', borrow_original_new_release s bookId readerId today = .error (f, s') → s' = s) ∧
    (∀ f s', return_copy s copyId whenD = .error (f, s') → s' = s) ∧
    (∀ f s', return_original_new_release s bookId readerId whenD = .error (f, s') → s' = s) := by
  refine ⟨?_, ?_, ?_, ?_⟩ <;> intro f s' h
  · simp only [borrow_copy] at h
    repeat' split at h
    all_goals simp_all
  · simp only [borrow_original_new_release] at h
    repeat' split at h
    all_goals simp_all
  · simp only [return_copy] at h
    repeat' split at h
    all_goals simp_all
  · simp only [return_original_new_release] at h
    repeat' split at h
    all_goals simp_all

theorem claim_C1_witness :
    borrow_copy wStateIn "CX" "R3" 0 = .error (.COPY_NOT_FOUND, wStateIn) ∧ wStateIn = wStateIn :=
  ⟨by decide,
   (claim_C1_faults_leave_state_unchanged wStateIn "CX" "R3" "B1" 0 0).1
     .COPY_NOT_FOUND wStateIn (by decide)⟩

/-- C4: borrow_copy checks its preconditions in order, each raising a distinct
fault: missing copy gives COPY_NOT_FOUND; existing copy but missing reader gives
READER_NOT_FOUND; both present but the reader cannot borrow gives BORROW_FORBIDDEN
regardless of the copy status (hence before COPY_NOT_AVAILABLE); both present,
reader eligible, copy not IN_LIBRARY gives COPY_NOT_AVAILABLE. -/
theorem claim_C4_borrow_copy_fault_order (s : LibState) (copyId readerId : String) (today : Int) :
    (dictLookup s.db.copies copyId = none →
       borrow_copy s copyId readerId today = .error (.COPY_NOT_FOUND, s)) ∧
    (∀ c, dictLookup s.db.copies copyId = some c →
       dictLookup s.db.readers readerId = none →
       borrow_copy s copyId readerId today = .error (.READER_NOT_FOUND, s)) ∧
    (∀ c r, dictLookup s.db.copies copyId = some c →
       dictLookup s.db.readers readerId = some r →
       r.can_borrow today = false →
       borrow_copy s copyId readerId today = .error (.BORROW_FORBIDDEN, s)) ∧
    (∀ c r, dictLookup s.db.copies copyId = some c →
       dictLookup s.db.readers readerId = some r →
       r.can_borrow today = true →
       c.status ≠ CopyStatus.IN_LIBRARY →
       borrow_copy s copyId readerId today = .error (.COPY_NOT_AVAILABLE, s)) := by
  refine ⟨?_, ?_, ?_, ?_⟩
  · intro h; simp [borrow_copy, h]
  · intro c hc hr; simp [borrow_copy, hc, hr]
  · intro c r hc hr hcb; simp [borrow_copy, hc, hr, hcb]
  · intro c r hc hr hcb hst; simp [borrow_copy, hc, hr, hcb, hst]

theorem claim_C4_witness :
    borrow_copy wStateNotAvail "C1" "R2" 0 = .error (.BORROW_FORBIDDEN, wStateNotAvail) :=
  (claim_C4_borrow_copy_fault_order wStateNotAvail "C1" "R2" 0).2.2.1
    wCopy wReaderBanned (by decide) (by decide) (by decide)

/-- C5: a successful borrow_copy creates a loan with start = asOf,
due = asOf + 30 days exactly and returned = none, stores it under the fresh id
"L" followed by the previous loan count plus one, marks the copy LOANED, appends
the loan id to the reader's activeLoanIds, returns the loan id, and sends no
notification (the emitted email list is empty and the notifier state is kept). -/
theorem claim_C5_borrow_copy_success_effects (s : LibState) (copyId readerId : String)
    (today : Int) (c : Copy) (r : Reader)
    (hc : dictLookup s.db.copies copyId = some c)
    (hr : dictLookup s.db.readers readerId = some r)
    (hcb : r.can_borrow today = true)
    (hst : c.status = CopyStatus.IN_LIBRARY) :
    borrow_copy s copyId readerId today =
      .ok ("L" ++ toString (s.db.loans.length + 1),
        ⟨{ s.db with
            loans := dictInsert s.db.loans ("L" ++ toString (s.db.loans.length + 1))
              ⟨copyId, c.bookId, readerId, today, today + 30, none⟩,
            copies := dictInsert s.db.copies copyId { c with status := CopyStatus.LOANED },
            readers := dictInsert s.db.readers readerId
              { r with activeLoanIds := r.activeLoanIds ++ ["L" ++ toString (s.db.loans.length + 1)] } },
          s.alert⟩,
        []) :=
  borrow_copy_ok s copyId readerId today c r hc hr hcb hst

theorem claim_C5_witness :
    borrow_copy wStateIn "C1" "R3" 0 =
      .ok ("L1",
        ⟨⟨[("B1", wBook)], [("C1", ⟨"C1", "B1", CopyStatus.LOANED⟩)],
          [("R3", ⟨"R3", "r3@x", none, ["L1"]⟩)],
          [("L1", ⟨"C1", "B1", "R3", 0, 30, none⟩)], []⟩, wAlertOff⟩,
        []) := by
  have h := claim_C5_borrow_copy_success_effects wStateIn "C1" "R3" 0 wCopyIn wReaderOk
    (by decide) (by decide) (by decide) (by decide)
  rw [h]
  decide

/-- C3: Loan.late_days is 0 when the loan is unreturned or returned on or before
its due date, and is the whole-day difference returned minus due otherwise;
consequently a late return through return_copy sets the reader's ban to
returnDate plus twice the late days, and a return on or before the due date
leaves the ban exactly as it was (never sets one). -/
theorem claim_C3_late_days_and_ban_rule :
    (∀ L : Loan, L.returned = none → L.late_days = 0) ∧
    (∀ (L : Loan) (ret : Int), L.returned = some ret → ret ≤ L.due → L.late_days = 0) ∧
    (∀ (L : Loan) (ret : Int), L.returned = some ret → L.due < ret → L.late_days = ret - L.due) ∧
    (∀ (s : LibState) (copyId : String) (whenD : Int) (c : Copy) (loanId : String)
        (L0 : Loan) (R : Reader),
      dictLookup s.db.copies copyId = some c →
      (c.status = CopyStatus.LOANED ∨ c.status = CopyStatus.LATE) →
      s.db.loans.find? (fun p => p.2.copyId == copyId && p.2.returned.isNone) = some (loanId, L0) →
      ¬ (loanId = "") →
      dictLookup s.db.readers L0.readerId = some R →
      L0.due < whenD →
      ∃ s' sent R', return_copy s copyId whenD = .ok ((), s', sent) ∧
        dictLookup s'.db.readers L0.readerId = some R' ∧
        R'.activeBanUntil = some (whenD + 2 * (whenD - L0.due))) ∧
    (∀ (s : LibState) (copyId : String) (whenD : Int) (c : Copy) (loanId : String)
        (L0 : Loan) (R : Reader),
      dictLookup s.db.copies copyId = some c →
      (c.status = CopyStatus.LOANED ∨ c.status = CopyStatus.LATE) →
      s.db.loans.find? (fun p => p.2.copyId == copyId && p.2.returned.isNone) = some (loanId, L0) →
      ¬ (loanId = "") →
      dictLookup s.db.readers L0.readerId = some R →
      whenD ≤ L0.due →
      ∃ s' sent R', return_copy s copyId whenD = .ok ((), s', sent) ∧
        dictLookup s'.db.readers L0.readerId = some R' ∧
        R'.activeBanUntil = R.activeBanUntil) := by
  refine ⟨?_, ?_, ?_, ?_, ?_⟩
  · intro L h; simp [Loan.late_days, h]
  · intro L ret h hle; simp [Loan.late_days, h, not_lt.mpr hle]
  · intro L ret h hlt; simp [Loan.late_days, h, hlt]
  · intro s copyId whenD c loanId L0 R hc hst hfind hid hR hlate
    obtain ⟨sent, heq⟩ := return_copy_ok s copyId whenD c loanId L0 R hc hst hfind hid hR
    have hld : Loan.late_days { L0 with returned := some whenD } = whenD - L0.due := by
      simp [Loan.late_days, hlate]
    refine ⟨_, sent, _, heq, dictLookup_dictInsert_self _ _ _, ?_⟩
    simp [hld, sub_pos.mpr hlate]
  · intro s copyId whenD c loanId L0 R hc hst hfind hid hR hontime
    obtain ⟨sent, heq⟩ := return_copy_ok s copyId whenD c loanId L0 R hc hst hfind hid hR
    have hld : Loan.late_days { L0 with returned := some whenD } = 0 := by
      simp [Loan.late_days, not_lt.mpr hontime]
    refine ⟨_, sent, _, heq, dictLookup_dictInsert_self _ _ _, ?_⟩
    simp [hld]

theorem claim_C3_witness :
    ∃ s' sent R', return_copy wState "C1" 31 = .ok ((), s', sent) ∧
      dictLookup s'.db.readers "R1" = some R' ∧
      R'.activeBanUntil = some (31 + 2 * (31 - 30)) :=
  claim_C3_late_days_and_ban_rule.2.2.2.1 wState "C1" 31 wCopy "L1" wLoan wReader
    (by decide) (by decide) (by decide) (by decide) (by decide) (by decide)

/-- C8: when return_copy or return_original_new_release processes a late return
for a reader who already has a ban (activeBanUntil = some b0 for an arbitrary
prior b0), the new activeBanUntil is exactly returnDate + 2 * lateDays,
overwriting the prior value rather than extending it. -/
theorem claim_C8_late_return_ban_overwrites :
    (∀ (s : LibState) (copyId : String) (whenD : Int) (c : Copy) (loanId : String)
        (L0 : Loan) (R : Reader) (b0 : Int),
      dictLookup s.db.copies copyId = some c →
      (c.status = CopyStatus.LOANED ∨ c.status = CopyStatus.LATE) →
      s.db.loans.find? (fun p => p.2.copyId == copyId && p.2.returned.isNone) = some (loanId, L0) →
      ¬ (loanId = "") →
      dictLookup s.db.readers L0.readerId = some R →
      R.activeBanUntil = some b0 →
      L0.due < whenD →
      ∃ s' sent R', return_copy s copyId whenD = .ok ((), s', sent) ∧
        dictLookup s'.db.readers L0.readerId = some R' ∧
        R'.activeBanUntil = some (whenD + 2 * (whenD - L0.due))) ∧
    (∀ (s : LibState) (bookId readerId : String) (whenD : Int) (b : Book) (loanId : String)
        (L0 : Loan) (R : Reader) (b0 : Int),
      dictLookup s.db.books bookId = some b →
      dictLookup s.db.readers readerId = some R →
      s.db.newReleaseBorrowed.contains bookId = true →
      s.db.loans.find? (fun p =>
        p.2.bookId == bookId && p.2.readerId == readerId &&
        p.2.copyId == "" && p.2.returned.isNone) = some (loanId, L0) →
      ¬ (loanId = "") →
      R.activeBanUntil = some b0 →
      L0.due < whenD →
      ∃ s' sent R', return_original_new_release s bookId readerId whenD = .ok ((), s', sent) ∧
        dictLookup s'.db.readers readerId = some R' ∧
        R'.activeBanUntil = some (whenD + 2 * (whenD - L0.due))) := by
  constructor
  · intro s copyId whenD c loanId L0 R b0 hc hst hfind hid hR hban hlate
    obtain ⟨sent, heq⟩ := return_copy_ok s copyId whenD c loanId L0 R hc hst hfind hid hR
    have hld : Loan.late_days { L0 with returned := some whenD } = whenD - L0.due := by
      simp [Loan.late_days, hlate]
    refine ⟨_, sent, _, heq, dictLookup_dictInsert_self _ _ _, ?_⟩
    simp [hld, sub_pos.mpr hlate]
  · intro s bookId readerId whenD b loanId L0 R b0 hb hR hmem hfind hid hban hlate
    obtain ⟨sent, heq⟩ := return_original_ok s bookId readerId whenD b loanId L0 R hb hR hmem hfind hid
    have hld : Loan.late_days { L0 with returned := some whenD } = whenD - L0.due := by
      simp [Loan.late_days, hlate]
    refine ⟨_, sent, _, heq, dictLookup_dictInsert_self _ _ _, ?_⟩
    simp [hld, sub_pos.mpr hlate]

theorem claim_C8_witness :
    ∃ s' sent R', return_copy wStateBan "C1" 40 = .ok ((), s', sent) ∧
      dictLookup s'.db.readers "R1" = some R' ∧
      R'.activeBanUntil = some (40 + 2 * (40 - 30)) :=
  claim_C8_late_return_ban_overwrites.1 wStateBan "C1" 40 wCopy "L1" wLoan wReaderBanLoan 5
    (by decide) (by decide) (by decide) (by decide) (by decide) (by decide) (by decide)

/-- C10: an on-time or early return (late days = 0) leaves the reader's
activeBanUntil completely unchanged, and modifies only the returned loan, the
copy status (for return_copy) or the borrowed-originals set (for
return_original_new_release), and the reader's activeLoanIds: books, the other
map entries, the subscriptions and the gateway are all exactly as before. -/
theorem claim_C10_on_time_return_frame :
    (∀ (s : LibState) (copyId : String) (whenD : Int) (c : Copy) (loanId : String)
        (L0 : Loan) (R : Reader),
      dictLookup s.db.copies copyId = some c →
      (c.status = CopyStatus.LOANED ∨ c.status = CopyStatus.LATE) →
      s.db.loans.find? (fun p => p.2.copyId == copyId && p.2.returned.isNone) = some (loanId, L0) →
      ¬ (loanId = "") →
      dictLookup s.db.readers L0.readerId = some R →
      whenD ≤ L0.due →
      ∃ sent, return_copy s copyId whenD =
        .ok ((),
          ⟨{ s.db with
              loans := dictInsert s.db.loans loanId { L0 with returned := some whenD },
              copies := dictInsert s.db.copies copyId { c with status := CopyStatus.IN_LIBRARY },
              readers := dictInsert s.db.readers L0.readerId
                ⟨R.id, R.email, R.activeBanUntil,
                 R.activeLoanIds.filter (fun x => !(x == loanId))⟩ },
            s.alert⟩,
          sent)) ∧
    (∀ (s : LibState) (bookId readerId : String) (whenD : Int) (b : Book) (loanId : String)
        (L0 : Loan) (R : Reader),
      dictLookup s.db.books bookId = some b →
      dictLookup s.db.readers readerId = some R →
      s.db.newReleaseBorrowed.contains bookId = true →
      s.db.loans.find? (fun p =>
        p.2.bookId == bookId && p.2.readerId == readerId &&
        p.2.copyId == "" && p.2.returned.isNone) = some (loanId, L0) →
      ¬ (loanId = "") →
      whenD ≤ L0.due →
      ∃ sent, return_original_new_release s bookId readerId whenD =
        .ok ((),
          ⟨{ s.db with
              loans := dictInsert s.db.loans loanId { L0 with returned := some whenD },
              newReleaseBorrowed := setRemove s.db.newReleaseBorrowed bookId,
              readers := dictInsert s.db.readers readerId
                ⟨R.id, R.email, R.activeBanUntil,
                 R.activeLoanIds.filter (fun x => !(x == loanId))⟩ },
            s.alert⟩,
          sent)) := by
  constructor
  · intro s copyId whenD c loanId L0 R hc hst hfind hid hR hontime
    obtain ⟨sent, heq⟩ := return_copy_ok s copyId whenD c loanId L0 R hc hst hfind hid hR
    have hld : Loan.late_days { L0 with returned := some whenD } = 0 := by
      simp [Loan.late_days, not_lt.mpr hontime]
    refine ⟨sent, ?_⟩
    rw [heq]
    simp [hld]
  · intro s bookId readerId whenD b loanId L0 R hb hR hmem hfind hid hontime
    obtain ⟨sent, heq⟩ := return_original_ok s bookId readerId whenD b loanId L0 R hb hR hmem hfind hid
    have hld : Loan.late_days { L0 with returned := some whenD } = 0 := by
      simp [Loan.late_days, not_lt.mpr hontime]
    refine ⟨sent, ?_⟩
    rw [heq]
    simp [hld]

theorem claim_C10_witness :
    ∃ sent, return_copy wStateBan "C1" 20 =
      .ok ((), ⟨⟨[("B1", wBook)], [("C1", wCopyIn)],
        [("R1", ⟨"R1", "r1@x", some 5, []⟩)],
        [("L1", ⟨"C1", "B1", "R1", 0, 30, some 20⟩)], []⟩, wAlertOff⟩, sent) := by
  obtain ⟨sent, heq⟩ := claim_C10_on_time_return_frame.1 wStateBan "C1" 20 wCopy "L1" wLoan
    wReaderBanLoan (by decide) (by decide) (by decide) (by decide) (by decide) (by decide)
  refine ⟨sent, ?_⟩
  rw [heq]
  exact congrArg (fun st => Except.ok ((), st, sent)) (by decide)

/-- C6: from any store satisfying the per-reader limit (every reader holds at
most 3 active loans), any sequence of borrow/return operations preserves the
limit, and a borrow attempt (copy or new-release original) by an existing
reader who already holds 3 active loans fails with BORROW_FORBIDDEN. -/
theorem claim_C6_loan_limit (s : LibState) (hinv : loanLimit s.db) :
    (∀ ops : List Op, loanLimit (runOps s ops).db) ∧
    (∀ (copyId readerId : String) (today : Int) (c : Copy) (r : Reader),
      dictLookup s.db.copies copyId = some c →
      dictLookup s.db.readers readerId = some r →
      r.activeLoanIds.length = 3 →
      borrow_copy s copyId readerId today = .error (.BORROW_FORBIDDEN, s)) ∧
    (∀ (bookId readerId : String) (today : Int) (b : Book) (r : Reader),
      dictLookup s.db.books bookId = some b →
      dictLookup s.db.readers readerId = some r →
      b.isNewRelease = true →
      r.activeLoanIds.length = 3 →
      borrow_original_new_release s bookId readerId today = .error (.BORROW_FORBIDDEN, s)) := by
  refine ⟨fun ops => loanLimit_runOps ops s hinv, ?_, ?_⟩
  · intro copyId readerId today c r hc hr hlen
    have hcb : r.can_borrow today = false := by
      unfold Reader.can_borrow
      simp [hlen]
    simp [borrow_copy, hc, hr, hcb]
  · intro bookId readerId today b r hb hr hnr hlen
    have hcb : r.can_borrow today = false := by
      unfold Reader.can_borrow
      simp [hlen]
    simp [borrow_original_new_release, hb, hr, hnr, hcb]

theorem claim_C6_witness :
    loanLimit (runOps wState [Op.returnC "C1" 31]).db ∧
    borrow_copy wState3 "C1" "R5" 0 = .error (.BORROW_FORBIDDEN, wState3) :=
  ⟨(claim_C6_loan_limit wState (by decide)).1 [Op.returnC "C1" 31],
   (claim_C6_loan_limit wState3 (by decide)).2.1 "C1" "R5" 0 wCopyIn wReader3
     (by decide) (by decide) (by decide)⟩

/-- C7 counterexample: with new-release book B2 in the borrowed-originals set
and a banned reader R2, borrow_original_new_release fails with BORROW_FORBIDDEN,
not ORIGINAL_ALREADY_BORROWED: the claim that any reader's attempt fails with
ORIGINAL_ALREADY_BORROWED while the original is out is false as stated. -/
theorem claim_C7_counterexample :
    "B2" ∈ wStateNR.db.newReleaseBorrowed ∧
    borrow_original_new_release wStateNR "B2" "R2" 0 = .error (.BORROW_FORBIDDEN, wStateNR) ∧
    Fault.BORROW_FORBIDDEN ≠ Fault.ORIGINAL_ALREADY_BORROWED := by
  refine ⟨by decide, by decide, by decide⟩

/-- C7 (amended): while a book is in the borrowed-originals set no
borrow_original_new_release for it can succeed for any reader; when the book
exists as a new release and the reader exists and can borrow, the fault raised
is ORIGINAL_ALREADY_BORROWED; and after return_original_new_release succeeds, a
subsequent borrow_original_new_release by an eligible reader succeeds. -/
theorem claim_C7_single_open_original :
    (∀ (s : LibState) (bookId readerId : String) (today : Int),
      bookId ∈ s.db.newReleaseBorrowed →
      ∀ x, borrow_original_new_release s bookId readerId today ≠ .ok x) ∧
    (∀ (s : LibState) (bookId readerId : String) (today : Int) (b : Book) (r : Reader),
      dictLookup s.db.books bookId = some b →
      dictLookup s.db.readers readerId = some r →
      b.isNewRelease = true →
      r.can_borrow today = true →
      s.db.newReleaseBorrowed.contains bookId = true →
      borrow_original_new_release s bookId readerId today =
        .error (.ORIGINAL_ALREADY_BORROWED, s)) ∧
    (∀ (s s' : LibState) (bookId readerId readerId2 : String) (whenD today2 : Int)
        (sent : List Email) (b : Book) (r2 : Reader),
      return_original_new_release s bookId readerId whenD = .ok ((), s', sent) →
      dictLookup s'.db.books bookId = some b →
      dictLookup s'.db.readers readerId2 = some r2 →
      b.isNewRelease = true →
      r2.can_borrow today2 = true →
      ∃ x, borrow_original_new_release s' bookId readerId2 today2 = .ok x) := by
  refine ⟨fun s bId rId t hmem => borrow_original_no_success_of_borrowed s bId rId t hmem, ?_, ?_⟩
  · intro s bookId readerId today b r hb hr hnr hcb hmem
    have hm : bookId ∈ s.db.newReleaseBorrowed := by simpa using hmem
    simp [borrow_original_new_release, hb, hr, hnr, hcb, hmem, hm]
  · intro s s' bookId readerId readerId2 whenD today2 sent b r2 hret hb hr hnr hcb
    have hrem : s'.db.newReleaseBorrowed = setRemove s.db.newReleaseBorrowed bookId :=
      return_original_ok_inv hret
    have hcontains : s'.db.newReleaseBorrowed.contains bookId = false := by
      rw [hrem]
      exact setRemove_contains_false _ _
    exact ⟨_, borrow_original_ok s' bookId readerId2 today2 b r2 hb hr hnr hcb hcontains⟩

theorem claim_C7_witness :
    borrow_original_new_release wStateNR2 "B2" "R3" 0 =
      .error (.ORIGINAL_ALREADY_BORROWED, wStateNR2) :=
  claim_C7_single_open_original.2.1 wStateNR2 "B2" "R3" 0 wBookNR wReaderOk
    (by decide) (by decide) (by decide) (by decide) (by decide)

/-- C9: notify_available is a no-op when no gateway is configured; otherwise it
emits exactly one message per reader subscribed to the book, with subject
"Disponible: " followed by the title resolved through the lookup and body
"Ya puedes solicitarlo"; the notifier state, subscriptions included, is
unchanged in every case. -/
theorem claim_C9_notify_available_spec (a : BioAlert) (bookId : String)
    (el tl : String → String) :
    (a.gateway = false → a.notify_available bookId el tl = (a, [])) ∧
    (a.notify_available bookId el tl).1 = a ∧
    (a.gateway = true →
      (a.notify_available bookId el tl).2 =
        ((dictLookup a.subs bookId).getD []).map
          (fun rid => ⟨el rid, "Disponible: " ++ tl bookId, "Ya puedes solicitarlo"⟩)) := by
  refine ⟨?_, notify_available_fst a bookId el tl, ?_⟩
  · intro h; simp [BioAlert.notify_available, h]
  · intro h; simp [BioAlert.notify_available, h]

theorem claim_C9_witness :
    (wAlertOn.notify_available "B1" (fun r => r) (fun b => b)).2 =
      [⟨"R1", "Disponible: B1", "Ya puedes solicitarlo"⟩] := by
  have h := (claim_C9_notify_available_spec wAlertOn "B1" (fun r => r) (fun b => b)).2.2 rfl
  rw [h]
  decide


end Biblioteca
